import Mathlib

/-!
Verification of the dashcam-api backend core: vendor-data normalization and
the real-time device-state cache.  Shallow embedding of the Python sources:
timestamps are epoch seconds/milliseconds as `Int`, numeric JSON values are
`ℚ`, absent JSON fields are `Option`, and Python truthiness is modelled
explicitly where the code relies on it (`x or y`, `if x:`).
-/

namespace Dashcam

/-! ## Python value helpers -/

/-- Python truthiness of an optional integer (`None` and `0` are falsy). -/
def truthyInt : Option Int → Bool
  | none => false
  | some t => t != 0

/-- Python `a or b` on optional integers. -/
def pyOrInt (a b : Option Int) : Option Int :=
  if truthyInt a then a else b

/-- Python truthiness of an optional rational (`None` and `0.0` are falsy). -/
def truthyQ : Option ℚ → Bool
  | none => false
  | some q => q != 0

/-- Python `a or b` on optional rationals. -/
def pyOrQ (a b : Option ℚ) : Option ℚ :=
  if truthyQ a then a else b

/-- Python primitive JSON scalar (booleans, numbers, strings). -/
inductive Prim where
  | pbool (b : Bool)
  | pint (n : Int)
  | pstr (s : String)
deriving DecidableEq, Repr

/-- Python truthiness of a primitive value. -/
def Prim.truthy : Prim → Bool
  | .pbool b => b
  | .pint n => n != 0
  | .pstr s => s != ""

/-- Python `a or b` over optional primitives (`dict.get` returns `None` for
an absent key, which is falsy). -/
def pyOrPrim (a b : Option Prim) : Option Prim :=
  match a with
  | some v => if v.truthy then some v else b
  | none => b

/-- Python `str.replace("_", " ")` followed by `str.title()`, on char lists:
every alphabetic character starting a run is uppercased, the rest of the run
lowercased (used for fallback alarm names). -/
def pyTitleAux : Bool → List Char → List Char
  | _, [] => []
  | prevAlpha, c :: cs =>
    if c.isAlpha then
      (if prevAlpha then c.toLower else c.toUpper) :: pyTitleAux true cs
    else
      c :: pyTitleAux false cs

/-- Fallback alarm-name rendering: `flag_name.replace("_", " ").title()`. -/
def pyTitleReplace (s : String) : String :=
  String.mk (pyTitleAux false ((s.replace "_" " ").data))

/-! ## BaseAdapter (src/adapters/base_adapter.py) -/

/-- `BaseAdapter.INTEGER_TS_CORRECTION_HOURS`: vendor integer timestamps are
5 hours behind the intended clock. -/
def INTEGER_TS_CORRECTION_HOURS : Int := 5

/-- `BaseAdapter.convert_timestamp_to_ms`, integer branch (string timestamps
are a separate branch of the source; the integer branch and the `None`
branch are modelled, which is all the integer-timestamp claims need).
Integers below `1e12` are seconds, otherwise milliseconds; both get the
+5 hour correction. -/
def convert_timestamp_to_ms : Option Int → Option Int
  | none => none
  | some t =>
    let correction_seconds := INTEGER_TS_CORRECTION_HOURS * 3600
    if t < 1000000000000 then
      some ((t + correction_seconds) * 1000)
    else
      some (t + correction_seconds * 1000)

/-- `BaseAdapter.convert_raw_coords_to_decimal`: vendor fixed-point
coordinates scaled by 1e6 to decimal degrees; `None` for a missing value. -/
def convert_raw_coords_to_decimal : Option ℚ → Option ℚ
  | none => none
  | some c => some (c / 1000000)

/-! ## DeviceCacheDB row (src/models/device_cache_db.py) -/

/-- One row of the `device_cache` table.  Timestamps are epoch seconds. -/
structure DeviceCacheRow where
  latitude : Option ℚ
  longitude : Option ℚ
  speed : Option ℚ
  direction : Option ℚ
  altitude : Option ℚ
  address : Option String
  accStatus : Option Bool
  isOnline : Option Bool
  gpsTime : Option Int
  lastOnlineTime : Option Int
  updatedAt : Option Int
deriving DecidableEq, Repr

/-- Fresh empty cache row (column defaults of `DeviceCacheDB`). -/
def emptyCacheRow : DeviceCacheRow :=
  ⟨none, none, none, none, none, none, some false, some false, none, none, none⟩

/-! ## get_latest_gps fast path (src/routers/gps.py, lines 129-175) -/

/-- What the `/gps/latest` route does after looking up the cache row:
either answer from the cache (carrying the `source` tag) without any
vendor call, or fall through to the vendor API. -/
inductive LatestGpsAction where
  | fromCache (row : DeviceCacheRow) (source : String)
  | queryVendor
deriving DecidableEq, Repr

/-- Cache-freshness decision of `get_latest_gps`: a row that carries both
coordinates and whose age is under 300 seconds is served directly with
source tag `"cache"`; otherwise the vendor API is queried.  A missing
`updated_at` defaults the age to `999999` (stale). -/
def get_latest_gps_action (now : Int) (cache : Option DeviceCacheRow) : LatestGpsAction :=
  match cache with
  | none => .queryVendor
  | some c =>
    if c.latitude.isSome && c.longitude.isSome then
      let cache_age_seconds : Int :=
        match c.updatedAt with
        | some u => now - u
        | none => 999999
      if cache_age_seconds < 300 then
        .fromCache c "cache"
      else
        .queryVendor
    else
      .queryVendor

/-! ## DeviceDB row and the auto-config scheduler
(src/models/device_db.py, src/services/device_auto_config_service.py) -/

/-- Auto-configuration columns of the `devices` table. -/
structure DeviceRow where
  status : String
  configured : Option String
  configAttempts : Option Nat
  configLastAttempt : Option Int
  lastOnlineAt : Option Int
deriving DecidableEq, Repr

/-- `DeviceAutoConfigService.INITIAL_DELAY_MINUTES`. -/
def INITIAL_DELAY_MINUTES : Int := 3

/-- `DeviceAutoConfigService.RETRY_DELAY_MINUTES`. -/
def RETRY_DELAY_MINUTES : Int := 5

/-- `DeviceAutoConfigService._sync_device_statuses`, per-device step: the
device is online only if the cache row has `acc_status` truthy AND the row
is fresh (age in minutes at most 10); `last_online_at` is stamped on a
genuine offline-to-online edge, or backfilled from the cache when missing
while online.  A device with no cache row is left untouched. -/
def sync_device_status (now : Int) (device : DeviceRow)
    (cache : Option DeviceCacheRow) : DeviceRow :=
  match cache with
  | none => device
  | some c =>
    let oldStatus := device.status
    let cache_is_fresh : Bool :=
      match c.updatedAt with
      | some u => decide ((((now - u : Int) : ℚ) / 60) ≤ 10)
      | none => false
    let newStatus := if c.accStatus.getD false && cache_is_fresh then "online" else "offline"
    let d := { device with status := newStatus }
    if oldStatus = "offline" ∧ newStatus = "online" then
      { d with lastOnlineAt := some now }
    else if newStatus = "online" ∧ device.lastOnlineAt = none then
      { d with lastOnlineAt := some ((pyOrInt c.lastOnlineTime (some now)).getD now) }
    else
      d

/-- `DeviceAutoConfigService._get_unconfigured_online_devices` filter:
status `"online"` and `configured` NULL or `"no"`. -/
def is_unconfigured_online (d : DeviceRow) : Bool :=
  d.status == "online" && (d.configured == none || d.configured == some "no")

/-- Result of one `_process_device` call: the updated row and whether a
configuration command was dispatched this cycle. -/
structure ProcessResult where
  device : DeviceRow
  attempted : Bool
deriving DecidableEq, Repr

/-- `DeviceAutoConfigService._process_device`: first attempt waits 3 minutes
after `last_online_at`; retries wait 5 minutes after the last attempt
(a missing last-attempt timestamp forces the retry).  On dispatch, success
marks the device configured; both outcomes persist the attempt count and
timestamp.  `sendSuccess` stands for the external command-dispatch result. -/
def process_device (now : Int) (sendSuccess : Bool) (device : DeviceRow) : ProcessResult :=
  let attempts := device.configAttempts.getD 0
  let proceed : Bool :=
    if attempts = 0 then
      match device.lastOnlineAt with
      | none => false
      | some t => decide (t + INITIAL_DELAY_MINUTES * 60 ≤ now)
    else
      let la := device.configLastAttempt.getD (now - (RETRY_DELAY_MINUTES + 1) * 60)
      decide (la + RETRY_DELAY_MINUTES * 60 ≤ now)
  if proceed then
    if sendSuccess then
      ⟨{ device with configured := some "yes", configLastAttempt := some now,
                     configAttempts := some (attempts + 1) }, true⟩
    else
      ⟨{ device with configLastAttempt := some now,
                     configAttempts := some (attempts + 1) }, true⟩
  else
    ⟨device, false⟩

/-! ## Webhook handlers (src/routers/forwarding.py) -/

/-- Membership test `x in [True, 1, "1", "on", "ON"]` with Python equality
(`True == 1` holds, `0 == False` matches nothing in this list). -/
def prim_in_acc_list : Prim → Bool
  | .pbool b => b
  | .pint n => n == 1
  | .pstr s => s == "1" || s == "on" || s == "ON"

/-- Membership test `x in [True, 1, "1", "on", "ON", "online"]`. -/
def prim_in_online_list : Prim → Bool
  | .pbool b => b
  | .pint n => n == 1
  | .pstr s => s == "1" || s == "on" || s == "ON" || s == "online"

/-- Payload of a `msgId=3` device-status webhook: the fields
`handle_device_status` reads, each `none` when the key is absent. -/
structure StatusMsg where
  accStatus : Option Prim
  acc : Option Prim
  accState : Option Prim
  online : Option Prim
  isOnline : Option Prim
  onlineStatus : Option Prim
deriving DecidableEq, Repr

/-- Effect of applying one webhook payload to the cache: the written row and
whether an ACC-change notification fan-out was requested. -/
structure WebhookEffect where
  row : DeviceCacheRow
  notified : Bool
deriving DecidableEq, Repr

/-- The `acc_status` local of `handle_device_status` after alias folding
and boolean conversion (`None` when all alias keys are absent or falsy). -/
def status_acc_value (msg : StatusMsg) : Option Bool :=
  (pyOrPrim msg.accStatus (pyOrPrim msg.acc msg.accState)).map prim_in_acc_list

/-- The `online_status` local of `handle_device_status` after alias folding
and boolean conversion. -/
def status_online_value (msg : StatusMsg) : Option Bool :=
  (pyOrPrim msg.online (pyOrPrim msg.isOnline msg.onlineStatus)).map prim_in_online_list

/-- `handle_device_status` (forwarding.py): folds the status aliases with
Python `or`, converts via the truthy-encoding lists, upserts the cache row
(only the fields carried, always refreshing `updated_at`), and requests a
notification iff the converted ACC value is present, the previous value is
known, and they differ. -/
def handle_device_status (now : Int) (msg : StatusMsg)
    (existing : Option DeviceCacheRow) : WebhookEffect :=
  let accB : Option Bool := status_acc_value msg
  let onlineB : Option Bool := status_online_value msg
  match existing with
  | some row =>
    let prev := row.accStatus
    let row1 := match accB with
      | some a => { row with accStatus := some a }
      | none => row
    let row2 := match onlineB with
      | some o =>
        let r := { row1 with isOnline := some o }
        if o then { r with lastOnlineTime := some now } else r
      | none => row1
    let row3 := { row2 with updatedAt := some now }
    ⟨row3, accB.isSome && prev.isSome && (prev != accB)⟩
  | none =>
    ⟨{ emptyCacheRow with
        accStatus := some (accB.getD false),
        isOnline := some (onlineB.getD false),
        lastOnlineTime := if onlineB = some true then some now else none,
        updatedAt := some now }, false⟩

/-- One item of a `msgId=1` GPS webhook batch (`gps.list[]`), after the
alias-key fallbacks (`lat`/`lng`/`spd`/...) are folded into the canonical
field each chain targets; `statusFlagsAcc` is `statusFlags.get("acc")`. -/
structure GpsWebhookItem where
  latitude : Option ℚ
  longitude : Option ℚ
  speed : Option ℚ
  direction : Option ℚ
  altitude : Option ℚ
  statusFlagsAcc : Option Bool
  time : Option Int
deriving DecidableEq, Repr

/-- Per-item body of `handle_gps_data` (forwarding.py): overwrites the
spatial fields, takes ACC from `statusFlags.get("acc", False)`, marks the
device online, refreshes `updated_at`, and requests a notification iff the
previous ACC value is known and differs.  `geocodeResult` stands for the
geocoding collaborator's answer (`none` when it is skipped or fails). -/
def handle_gps_item (now : Int) (geocodeResult : Option String)
    (item : GpsWebhookItem) (existing : Option DeviceCacheRow) : WebhookEffect :=
  let acc_status : Bool := item.statusFlagsAcc.getD false
  let gps_time : Option Int := if truthyInt item.time then item.time else none
  let address : Option String :=
    if truthyQ item.latitude && truthyQ item.longitude then geocodeResult else none
  match existing with
  | some row =>
    let prev := row.accStatus
    let row1 : DeviceCacheRow :=
      { row with
        latitude := item.latitude, longitude := item.longitude,
        speed := item.speed, direction := item.direction,
        altitude := item.altitude, gpsTime := gps_time, address := address,
        accStatus := some acc_status, isOnline := some true,
        lastOnlineTime := some now, updatedAt := some now }
    ⟨row1, prev.isSome && (prev != some acc_status)⟩
  | none =>
    ⟨{ latitude := item.latitude, longitude := item.longitude,
       speed := item.speed, direction := item.direction,
       altitude := item.altitude, gpsTime := gps_time, address := address,
       accStatus := some acc_status, isOnline := some true,
       lastOnlineTime := some now, updatedAt := some now }, false⟩

/-- Per-subscriber filter of `NotificationService.send_acc_notification`
(src/services/notification_service.py): preference `"none"` never sends,
`"on_only"` only on ACC on, `"off_only"` only on ACC off, anything else
(including the default `"both"`) always sends. -/
def subscriber_filter (pref : String) (accOn : Bool) : Bool :=
  if pref == "none" then false
  else if pref == "on_only" && !accOn then false
  else if pref == "off_only" && accOn then false
  else true

/-! ## Forwarding alarm taxonomy (src/routers/forwarding.py, 6-digit codes) -/

/-- Nested per-category alarm details (`adas`/`dsm`/`bsd`/`sda` object). -/
structure CatAlarmDetails where
  alarmEventType : Option Int
deriving DecidableEq, Repr

/-- One entry of a `msgId=2` webhook `alarm.list[]`. -/
structure WebhookAlarmItem where
  type : Option Int
  typeId : Option Int
  adas : Option CatAlarmDetails
  dsm : Option CatAlarmDetails
  bsd : Option CatAlarmDetails
  sda : Option CatAlarmDetails
deriving DecidableEq, Repr

/-- `ALARM_CATEGORY_MAP` category prefixes: 1=ADAS→64, 2=DSM→65, 3=BSD→66,
4=SDA→70. -/
def alarm_category_pfx : Int → Option Int
  | 1 => some 64
  | 2 => some 65
  | 3 => some 66
  | 4 => some 70
  | _ => none

/-- The nested details object named by `ALARM_CATEGORY_MAP[c]["field"]`. -/
def category_details (item : WebhookAlarmItem) : Int → Option CatAlarmDetails
  | 1 => item.adas
  | 2 => item.dsm
  | 3 => item.bsd
  | 4 => item.sda
  | _ => none

/-- `get_alarm_type_id` (forwarding.py): categorized alarms build
`prefix * 10000 + alarmEventType` (event code defaulting to 1); otherwise a
directly provided `typeId` is used, then a raw 6-digit-looking type, then
the `999900 + type` placeholder. -/
def get_alarm_type_id (item : WebhookAlarmItem) : Int :=
  match item.type, item.type.bind alarm_category_pfx with
  | some c, some pfx =>
    let details := (category_details item c).getD ⟨none⟩
    let event_type := details.alarmEventType.getD 1
    pfx * 10000 + event_type
  | _, _ =>
    match item.typeId with
    | some tid => tid
    | none =>
      match item.type with
      | some t => if t != 0 && decide (100000 < t) then t else 999900 + (if t != 0 then t else 0)
      | none => 999900

/-- `ALARM_TYPE_NAMES`: vendor 6-digit typeId to human-readable name. -/
def ALARM_TYPE_NAMES : Int → Option String
  | 640001 => some "Forward Collision Warning"
  | 640002 => some "Lane Departure Warning"
  | 640003 => some "Following Distance Warning"
  | 640004 => some "Pedestrian Collision Warning"
  | 640005 => some "Frequent Lane Change Warning"
  | 640006 => some "Road Sign Recognition"
  | 640101 => some "Road Sign Recognition"
  | 650001 => some "Fatigue Driving Warning"
  | 650002 => some "Phone Call Warning"
  | 650003 => some "Smoking Warning"
  | 650004 => some "Distracted Driving Warning"
  | 650005 => some "Driver Abnormal Warning"
  | 650006 => some "Driver Change Warning"
  | 650007 => some "Infrared Blocking Warning"
  | 650008 => some "Sunglasses Warning"
  | 650009 => some "Yawning Warning"
  | 650010 => some "Camera Covered Warning"
  | 650011 => some "Seatbelt Warning"
  | 650012 => some "Driver Not Detected"
  | 660001 => some "Rear Approach Warning"
  | 660002 => some "Left Rear Approach Warning"
  | 660003 => some "Right Rear Approach Warning"
  | 700001 => some "Rapid Acceleration Warning"
  | 700002 => some "Rapid Deceleration Warning"
  | 700003 => some "Sharp Turn Warning"
  | 700004 => some "Idling Warning"
  | 700005 => some "Abnormal Shutdown Warning"
  | 700006 => some "Neutral Sliding Warning"
  | 700007 => some "Engine Over-rev Warning"
  | 110100 => some "Emergency SOS"
  | 110101 => some "Speeding Alarm"
  | 110102 => some "Fatigue Driving Alarm"
  | 110103 => some "Danger Warning"
  | 110104 => some "GNSS Module Fault"
  | 110105 => some "GNSS Antenna Cut"
  | 110106 => some "GNSS Antenna Short Circuit"
  | 110107 => some "Main Power Undervoltage"
  | 110108 => some "Main Power Failure"
  | 110201 => some "Illegal Ignition"
  | 110202 => some "Illegal Movement"
  | 110203 => some "Collision Warning"
  | 110204 => some "Rollover Warning"
  | 110205 => some "Fuel Abnormal"
  | 110206 => some "Vehicle Stolen"
  | 110301 => some "Overtime Driving (Day)"
  | 110302 => some "Rest Time Insufficient"
  | 110303 => some "Route Deviation"
  | 110304 => some "VSS Fault"
  | 110305 => some "Oil Cut Circuit"
  | 120101 => some "Video Loss Alarm"
  | 120102 => some "Video Signal Blocking"
  | 120103 => some "Storage Fault"
  | 120104 => some "Other Video Equipment Fault"
  | 120105 => some "Bus Overload"
  | 130101 => some "Enter Geofence"
  | 130102 => some "Exit Geofence"
  | 130103 => some "Route Entry"
  | 130104 => some "Route Exit"
  | 130105 => some "Route Driving Time Abnormal"
  | _ => none

/-- Category label by typeId prefix in `get_alarm_name`. -/
def alarm_category_label : Int → String
  | 64 => "ADAS"
  | 65 => "DSM"
  | 66 => "BSD"
  | 70 => "SDA"
  | 11 => "Common"
  | 12 => "Channel"
  | 13 => "Geofence"
  | _ => "Unknown"

/-- `get_alarm_name` (forwarding.py): table lookup, falling back to the
generic `"<Category> Alarm (<typeId>)"` rendering (`//` is Python floor
division). -/
def get_alarm_name (type_id : Int) : String :=
  match ALARM_TYPE_NAMES type_id with
  | some n => n
  | none =>
    alarm_category_label (Int.fdiv type_id 10000) ++ " Alarm (" ++ toString type_id ++ ")"

/-! ## GPS response parsing (src/adapters/gps_adapter.py) -/

/-- Dialect-B nested `gps` object of a `data.list[]` device entry. -/
structure V2Gps where
  latitude : Option ℚ
  longitude : Option ℚ
  speed : Option ℚ
  direction : Option ℚ
  time : Option Int
  altitude : Option ℚ
deriving DecidableEq, Repr

/-- Dialect-B per-device entry of `data.list[]`. -/
structure V2Device where
  deviceId : String
  gps : Option V2Gps
  lastOnlineTime : Option Int
deriving DecidableEq, Repr

/-- Dialect-A flat point of `data.gpsInfo[]` (also the raw track point). -/
structure V1Point where
  latitude : Option ℚ
  longitude : Option ℚ
  speed : Option ℚ
  direction : Option ℚ
  height : Option ℚ
  time : Option Int
  timestamp : Option Int
  address : Option String
deriving DecidableEq, Repr

/-- Vendor GPS search response as read by `parse_latest_gps_response`. -/
structure GpsSearchResponse where
  code : Int
  list : List V2Device
  gpsInfo : List V1Point
deriving DecidableEq, Repr

/-- `LatestGpsDto` (src/models/dto.py). -/
structure LatestGpsDto where
  deviceId : String
  latitude : Option ℚ
  longitude : Option ℚ
  speed_kmh : Option ℚ
  direction_deg : Option ℚ
  altitude_m : Option ℚ
  timestamp_ms : Option Int
  address : Option String
deriving DecidableEq, Repr

/-- Dialect-A speed handling (gps_adapter.py): raw values above 1000 are
tenths of km/h, otherwise already km/h. -/
def v1_speed_kmh : Option ℚ → Option ℚ
  | none => none
  | some s => some (if 1000 < s then s / 10 else s)

/-- The dialect-B device scan: first entry whose `deviceId` matches and
whose `gps` object is truthy (a matching entry with an empty `gps` is
passed over and scanning continues). -/
def findV2Device (did : String) : List V2Device → Option (V2Device × V2Gps)
  | [] => none
  | d :: rest =>
    if d.deviceId == did then
      match d.gps with
      | some g => some (d, g)
      | none => findV2Device did rest
    else
      findV2Device did rest

/-- `GPSAdapter.parse_latest_gps_response`: dialect B is tried first by
device-ID scan; `use_v2_only` disables both the dialect-A fallback and the
`gps.time` timestamp preference (forcing `lastOnlineTime`).  Dialect A uses
the first `gpsInfo` entry with scaled coordinates. -/
def parse_latest_gps_response (resp : GpsSearchResponse) (device_id : String)
    (use_v2_only : Bool) : Option LatestGpsDto :=
  if resp.code = 200 ∨ resp.code = 0 then
    match findV2Device device_id resp.list with
    | some (d, g) =>
      let speed_kmh := g.speed.map (fun s => s / 10)
      let timestamp_ms :=
        if use_v2_only then
          convert_timestamp_to_ms d.lastOnlineTime
        else
          let ts := convert_timestamp_to_ms (pyOrInt g.time d.lastOnlineTime)
          if ts.isNone && truthyInt d.lastOnlineTime then
            convert_timestamp_to_ms d.lastOnlineTime
          else ts
      some ⟨device_id, g.latitude, g.longitude, speed_kmh, g.direction,
            g.altitude, timestamp_ms, none⟩
    | none =>
      if use_v2_only then none
      else
        match resp.gpsInfo with
        | [] => none
        | p :: _ =>
          some ⟨device_id,
                convert_raw_coords_to_decimal p.latitude,
                convert_raw_coords_to_decimal p.longitude,
                v1_speed_kmh p.speed,
                p.direction, p.height,
                convert_timestamp_to_ms (pyOrInt p.time p.timestamp),
                p.address⟩
  else none

/-- `TrackPointDto` (src/models/dto.py): coordinates and timestamp are
mandatory. -/
structure TrackPointDto where
  latitude : ℚ
  longitude : ℚ
  timestamp_ms : Int
  speed_kmh : Option ℚ
  direction_deg : Option ℚ
deriving DecidableEq, Repr

/-- `TrackPlaybackDto` (src/models/dto.py). -/
structure TrackPlaybackDto where
  deviceId : String
  start_time_ms : Int
  end_time_ms : Int
  points : List TrackPointDto
deriving DecidableEq, Repr

/-- Vendor detailed-track response as read by
`parse_track_history_response`.  `gpsInfo` is the `data.gpsInfo` path as
returned by `extract_response_data` (`none` when the path is absent or
null — only then does the source take its manual-extraction fallback);
`points` is the fallback `data.points` key. -/
structure TrackResponse where
  code : Int
  gpsInfo : Option (List V1Point)
  points : Option (List V1Point)
  startTime : Option Int
  endTime : Option Int
deriving DecidableEq, Repr

/-- Per-point body of the track-history loop: skip when either raw
coordinate is missing, when coordinate conversion fails, or when the
timestamp does not convert; otherwise build the `TrackPointDto`. -/
def parse_track_point (p : V1Point) : Option TrackPointDto :=
  if p.latitude.isNone || p.longitude.isNone then none
  else
    match convert_raw_coords_to_decimal p.latitude,
          convert_raw_coords_to_decimal p.longitude with
    | some lat, some lng =>
      match convert_timestamp_to_ms (pyOrInt p.time p.timestamp) with
      | some ts => some ⟨lat, lng, ts, v1_speed_kmh p.speed, p.direction⟩
      | none => none
    | _, _ => none

/-- `GPSAdapter.parse_track_history_response`: bad points are dropped
individually and, when at least one point is retained, the start/end bounds
come from the first/last retained point.  The source's local `data` is
bound only inside the `raw_points is None` fallback (gps_adapter.py:331),
so when the `data.gpsInfo` path is present and zero points survive the
filter, line 387 reads the unbound local, the resulting NameError is
caught by the outer except and the whole batch is aborted (`None`).  Only
in the fallback branch (path absent, `data` bound, `data.points` read) do
vendor-echoed bounds (defaulting to 0) get returned for an empty result. -/
def parse_track_history_response (resp : TrackResponse) (device_id : String) :
    Option TrackPlaybackDto :=
  if resp.code = 200 ∨ resp.code = 0 then
    match resp.gpsInfo with
    | some raw_points =>
      let points := raw_points.filterMap parse_track_point
      match points.head?, points.getLast? with
      | some f, some l => some ⟨device_id, f.timestamp_ms, l.timestamp_ms, points⟩
      | _, _ => none
    | none =>
      let raw_points := resp.points.getD []
      let points := raw_points.filterMap parse_track_point
      match points.head?, points.getLast? with
      | some f, some l => some ⟨device_id, f.timestamp_ms, l.timestamp_ms, points⟩
      | _, _ =>
        some ⟨device_id, (convert_timestamp_to_ms resp.startTime).getD 0,
              (convert_timestamp_to_ms resp.endTime).getD 0, points⟩
  else none

/-! ## GPS-alarm classifier (src/adapters/gps_adapter.py, parse_gps_alarms) -/

/-- Per-flag lookup entry of `ALARM_FLAG_MAPPING`. -/
structure FlagInfo where
  name : String
  severity : String
  type_id : Int
deriving DecidableEq, Repr

/-- `ALARM_FLAG_MAPPING` (31 platform-level alarm flags). -/
def ALARM_FLAG_MAPPING : String → Option FlagInfo
  | "emergency" => some ⟨"Emergency SOS", "critical", 1⟩
  | "overspeed" => some ⟨"Overspeed", "warning", 2⟩
  | "fatigueDriving" => some ⟨"Driver Fatigue", "warning", 3⟩
  | "dangerWarning" => some ⟨"Danger Warning", "warning", 4⟩
  | "gnssFault" => some ⟨"GPS Fault", "info", 5⟩
  | "gnssAntennaCut" => some ⟨"GPS Antenna Cut", "warning", 6⟩
  | "gnssAntennaShortCircuit" => some ⟨"GPS Antenna Short", "warning", 7⟩
  | "mainPowerUndervoltage" => some ⟨"Low Battery Voltage", "warning", 8⟩
  | "mainPowerFailure" => some ⟨"Power Failure", "critical", 9⟩
  | "lcdFault" => some ⟨"LCD Fault", "info", 10⟩
  | "ttsFault" => some ⟨"TTS Fault", "info", 11⟩
  | "cameraFault" => some ⟨"Camera Fault", "warning", 12⟩
  | "icCardFault" => some ⟨"IC Card Fault", "info", 13⟩
  | "vssFault" => some ⟨"Speed Sensor Fault", "warning", 14⟩
  | "overspeedWarning" => some ⟨"Overspeed Warning", "warning", 15⟩
  | "fatigueDrivingWarning" => some ⟨"Fatigue Driving Warning", "warning", 16⟩
  | "illegalDrivingAlarm" => some ⟨"Illegal Driving", "warning", 17⟩
  | "tirePressureWarning" => some ⟨"Tire Pressure Warning", "warning", 18⟩
  | "rightTurnBlindSpotAlarm" => some ⟨"Right Turn Blind Spot", "warning", 19⟩
  | "cumulativeDrivingOvertime" => some ⟨"Driving Overtime", "warning", 20⟩
  | "parkingOvertime" => some ⟨"Parking Overtime", "info", 21⟩
  | "areaEntryExit" => some ⟨"Geofence Entry/Exit", "info", 22⟩
  | "routeEntryExit" => some ⟨"Route Entry/Exit", "info", 23⟩
  | "routeDrivingTimeAbnormal" => some ⟨"Route Time Abnormal", "warning", 24⟩
  | "routeDeviation" => some ⟨"Route Deviation", "warning", 25⟩
  | "fuelAbnormal" => some ⟨"Fuel Abnormal", "warning", 26⟩
  | "vehicleStolen" => some ⟨"Vehicle Stolen", "critical", 27⟩
  | "illegalIgnition" => some ⟨"Illegal Ignition", "warning", 28⟩
  | "illegalMovement" => some ⟨"Illegal Movement", "warning", 29⟩
  | "collisionWarning" => some ⟨"Collision Warning", "critical", 30⟩
  | "rolloverWarning" => some ⟨"Rollover Warning", "critical", 31⟩
  | _ => none

/-- Lookup with the source's fallback dict (title-cased name, `"info"`,
`type_id` 0) for unmapped flag names. -/
def flag_info (flag_name : String) : FlagInfo :=
  (ALARM_FLAG_MAPPING flag_name).getD ⟨pyTitleReplace flag_name, "info", 0⟩

/-- `flag_names_ordered`: positional names for the bit-array alarm format. -/
def FLAG_NAMES_ORDERED : List String :=
  ["emergency", "overspeed", "fatigueDriving", "dangerWarning",
   "gnssFault", "gnssAntennaCut", "gnssAntennaShortCircuit",
   "mainPowerUndervoltage", "mainPowerFailure", "lcdFault",
   "ttsFault", "cameraFault", "icCardFault", "overspeedWarning",
   "fatigueDrivingWarning", "illegalDrivingAlarm", "tirePressureWarning",
   "rightTurnBlindSpotAlarm", "cumulativeDrivingOvertime", "parkingOvertime",
   "areaEntryExit", "routeEntryExit", "routeDrivingTimeAbnormal",
   "routeDeviation", "vssFault", "fuelAbnormal", "vehicleStolen",
   "illegalIgnition", "illegalMovement", "collisionWarning", "rolloverWarning"]

/-- `ADAS_EVENT_MAPPING` (name, severity). -/
def ADAS_EVENT_MAPPING : Int → Option (String × String)
  | 1 => some ("Front Collision Warning", "critical")
  | 2 => some ("Lane Departure Warning", "warning")
  | 3 => some ("Pedestrian Collision Warning", "critical")
  | 4 => some ("Following Too Close", "warning")
  | 5 => some ("Frequent Lane Change", "info")
  | 6 => some ("Road Sign Recognition", "info")
  | 7 => some ("Obstacle Detection", "warning")
  | 8 => some ("Blind Spot Warning", "warning")
  | 16 => some ("ADAS Camera Blocked", "warning")
  | 17 => some ("Driver Abnormal", "warning")
  | _ => none

/-- `VIDEO_ALARM_MAPPING` (name, severity). -/
def VIDEO_ALARM_MAPPING : String → Option (String × String)
  | "signalLost" => some ("Video Signal Lost", "warning")
  | "signalBlocked" => some ("Video Signal Blocked", "warning")
  | "storageFault" => some ("Storage Fault", "warning")
  | "otherVideoFault" => some ("Video Fault", "info")
  | "busOverload" => some ("Video Bus Overload", "warning")
  | "abnormalDriving" => some ("Abnormal Driving (Video)", "warning")
  | "specialAlarmRecording" => some ("Special Alarm Recording", "info")
  | _ => none

/-- `DRIVER_BEHAVIOR_MAPPING` (name, severity). -/
def DRIVER_BEHAVIOR_MAPPING : String → Option (String × String)
  | "fatigue" => some ("Driver Fatigue Detected", "warning")
  | "phoneCall" => some ("Phone Call Detected", "warning")
  | "smoking" => some ("Smoking Detected", "warning")
  | _ => none

/-- The `alarmSign`/`alarmFlags` field: a name-to-active dict, a positional
bit array, or absent. -/
inductive AlarmSignVal where
  | absent
  | dict (entries : List (String × Bool))
  | arr (bits : List Bool)
deriving DecidableEq, Repr

/-- Python truthiness of the alarm-sign value (empty containers falsy). -/
def AlarmSignVal.truthy : AlarmSignVal → Bool
  | .absent => false
  | .dict es => !es.isEmpty
  | .arr bs => !bs.isEmpty

/-- Python `a or b` on alarm-sign values. -/
def pyOrSign (a b : AlarmSignVal) : AlarmSignVal :=
  if a.truthy then a else b

/-- Nested `adasAlarm` object (`additional` entry with id 100). -/
structure AdasAlarm where
  alarmEventType : Option Int
  alarmLevel : Option Int
  latitude : Option ℚ
  longitude : Option ℚ
  dateTime : Option Int
  vehicleSpeed : Option ℚ
deriving DecidableEq, Repr

/-- One `additional`/`additionalInfos` entry: its id selects which nested
object is read (`adasAlarm` for 100, `videoAlarm` for 20, the
`abnormalDriving.behaviorType` dict for 24). -/
structure AdditionalInfo where
  id : Option Int
  adasAlarm : Option AdasAlarm
  videoAlarm : List (String × Bool)
  behaviorType : List (String × Bool)
deriving DecidableEq, Repr

/-- One raw GPS point as read by `parse_gps_alarms`. -/
structure RawGpsPoint where
  latitude : Option ℚ
  longitude : Option ℚ
  time : Option Int
  timestamp : Option Int
  speed : Option ℚ
  alarmSign : AlarmSignVal
  alarmFlags : AlarmSignVal
  additional : List AdditionalInfo
  additionalInfos : List AdditionalInfo
deriving DecidableEq, Repr

/-- Alarm family plus flag/code component of the dedup key, encoding the
source's string keys `flag_*` / `adas_*` / `video_*` / `driver_*`. -/
inductive AlarmFK where
  | flag (name : String)
  | adas (eventType : Int)
  | video (name : String)
  | driver (name : String)
deriving DecidableEq, Repr

/-- `AlarmDto` as built by `parse_gps_alarms`; `key` carries the family and
flag/code components that the source embeds in `alarm_id` and the dedup
key. -/
structure AlarmDto where
  key : AlarmFK
  type_id : Int
  level : String
  message : String
  timestamp_ms : Int
  latitude : Option ℚ
  longitude : Option ℚ
  speed : Option ℚ
deriving DecidableEq, Repr

/-- Dedup key `(family plus flag/code, timestampMs)` of an emitted alarm. -/
def AlarmDto.dedupKey (d : AlarmDto) : AlarmFK × Int :=
  (d.key, d.timestamp_ms)

/-- Running state of the batch scan: `seen_alarms` and the output list. -/
structure ParseState where
  seen : List (AlarmFK × Int)
  alarms : List AlarmDto
deriving DecidableEq, Repr

/-- The emission step shared by all four families: skip when the dedup key
was already seen, otherwise record the key and append the alarm. -/
def emitAlarm (st : ParseState) (d : AlarmDto) : ParseState :=
  if d.dedupKey ∈ st.seen then st
  else ⟨d.dedupKey :: st.seen, st.alarms ++ [d]⟩

/-- Alarm built from an active platform flag. -/
def mk_flag_dto (lat lng speed : Option ℚ) (ts : Int) (flag_name : String) : AlarmDto :=
  let info := flag_info flag_name
  ⟨.flag flag_name, info.type_id, info.severity, info.name, ts, lat, lng, speed⟩

/-- Candidates from one `additional` entry, by id. -/
def additional_candidates (lat lng speed : Option ℚ) (ts : Int)
    (info : AdditionalInfo) : List AlarmDto :=
  if info.id == some 100 then
    match info.adasAlarm with
    | none => []
    | some a =>
      match a.alarmEventType with
      | some e =>
        if e != 0 then
          let alarm_level := a.alarmLevel.getD 1
          let nmsev := (ADAS_EVENT_MAPPING e).getD ("ADAS Event " ++ toString e, "warning")
          let adas_ts :=
            match convert_timestamp_to_ms a.dateTime with
            | some v => if v != 0 then v else ts
            | none => ts
          let severity := if 2 ≤ alarm_level then "critical" else nmsev.2
          [⟨.adas e, 100 + e, severity, nmsev.1, adas_ts,
            pyOrQ a.latitude lat, pyOrQ a.longitude lng, pyOrQ a.vehicleSpeed speed⟩]
        else []
      | none => []
  else if info.id == some 20 then
    info.videoAlarm.filterMap (fun fa =>
      if fa.2 then
        let nmsev := (VIDEO_ALARM_MAPPING fa.1).getD (pyTitleReplace fa.1, "info")
        some ⟨.video fa.1, 200, nmsev.2, nmsev.1, ts, lat, lng, speed⟩
      else none)
  else if info.id == some 24 then
    info.behaviorType.filterMap (fun fa =>
      if fa.2 then
        let nmsev := (DRIVER_BEHAVIOR_MAPPING fa.1).getD (pyTitleReplace fa.1, "warning")
        some ⟨.driver fa.1, 300, nmsev.2, nmsev.1, ts, lat, lng, speed⟩
      else none)
  else []

/-- All alarm candidates of one GPS point, in source emission order: the
platform flags (dict or positional form), then each `additional` entry.
A point whose timestamp does not convert contributes nothing. -/
def point_candidates (p : RawGpsPoint) : List AlarmDto :=
  let latitude := convert_raw_coords_to_decimal p.latitude
  let longitude := convert_raw_coords_to_decimal p.longitude
  match convert_timestamp_to_ms (pyOrInt p.time p.timestamp) with
  | none => []
  | some ts =>
    let speed : Option ℚ := if truthyQ p.speed then some (p.speed.getD 0 / 10) else none
    let flagCands :=
      match pyOrSign p.alarmSign p.alarmFlags with
      | .dict es =>
        es.filterMap (fun fa =>
          if fa.2 then some (mk_flag_dto latitude longitude speed ts fa.1) else none)
      | .arr bs =>
        bs.enum.filterMap (fun ib =>
          if ib.2 && decide (ib.1 < FLAG_NAMES_ORDERED.length) then
            some (mk_flag_dto latitude longitude speed ts (FLAG_NAMES_ORDERED.getD ib.1 ""))
          else none)
      | .absent => []
    let addl := if !p.additional.isEmpty then p.additional else p.additionalInfos
    flagCands ++ addl.flatMap (additional_candidates latitude longitude speed ts)

/-- Vendor GPS search response as read by `parse_gps_alarms`. -/
structure GpsAlarmSearchResponse where
  code : Int
  list : List RawGpsPoint
  gpsInfo : List RawGpsPoint
deriving DecidableEq, Repr

/-- `GPSAdapter.parse_gps_alarms`: scan every point of the batch, emit each
active signal through the shared dedup step, then sort by timestamp most
recent first (Python stable sort with `reverse=True`). -/
def parse_gps_alarms (resp : GpsAlarmSearchResponse) : List AlarmDto :=
  if resp.code = 200 ∨ resp.code = 0 then
    let raw_points := if !resp.list.isEmpty then resp.list else resp.gpsInfo
    let final := raw_points.foldl (fun st p => (point_candidates p).foldl emitAlarm st) ⟨[], []⟩
    final.alarms.mergeSort (fun a b => decide (b.timestamp_ms ≤ a.timestamp_ms))
  else []

/-! ## Theorems -/

/-- Helper: the freshness comparison in minutes is a 600-second bound. -/
theorem fresh_iff_le_600 (x : Int) : (((x : ℚ) / 60) ≤ 10) ↔ x ≤ 600 := by
  rw [div_le_iff₀ (by norm_num : (0:ℚ) < 60)]
  norm_num
  exact_mod_cast Iff.rfl

/-- Helper: the status written by the scheduler sync step is online exactly
when the cache row's ACC is truthy and the row's age is at most 600
seconds; the trailing branches only touch `lastOnlineAt`. -/
theorem sync_device_status_status (now u : Int) (device : DeviceRow) (c : DeviceCacheRow)
    (hu : c.updatedAt = some u) :
    (sync_device_status now device (some c)).status =
      if c.accStatus.getD false && decide (now - u ≤ 600) then "online" else "offline" := by
  have hd : decide ((((now - u : Int) : ℚ) / 60) ≤ 10) = decide (now - u ≤ 600) :=
    decide_eq_decide.mpr (fresh_iff_le_600 (now - u))
  simp only [sync_device_status, hu, hd]
  split
  · split
    · rfl
    · split
      · rfl
      · rfl
  · split
    · rfl
    · split
      · rfl
      · rfl

/-- C1: for every integer vendor timestamp `t`, the normalizer returns
`(t + 18000) * 1000` when `t < 10^12` (seconds) and `t + 18000000`
otherwise (milliseconds); a `None` input yields `None`. -/
theorem C1_integer_timestamp_normalization :
    (∀ t : Int, t < 10 ^ 12 →
        convert_timestamp_to_ms (some t) = some ((t + 18000) * 1000)) ∧
    (∀ t : Int, 10 ^ 12 ≤ t →
        convert_timestamp_to_ms (some t) = some (t + 18000000)) ∧
    convert_timestamp_to_ms none = none := by
  refine ⟨fun t ht => ?_, fun t ht => ?_, rfl⟩
  · have h : t < 1000000000000 := by norm_num at ht; exact ht
    simp only [convert_timestamp_to_ms, INTEGER_TS_CORRECTION_HOURS, if_pos h]
    norm_num
  · have h : ¬ t < 1000000000000 := by norm_num at ht; omega
    simp only [convert_timestamp_to_ms, INTEGER_TS_CORRECTION_HOURS, if_neg h]
    norm_num

/-- Witness for C1 at concrete seconds and milliseconds inputs. -/
theorem C1_integer_timestamp_normalization_witness :
    convert_timestamp_to_ms (some 1700000000) = some ((1700000000 + 18000) * 1000) ∧
    convert_timestamp_to_ms (some 1700000000000) = some (1700000000000 + 18000000) :=
  ⟨C1_integer_timestamp_normalization.1 1700000000 (by norm_num),
   C1_integer_timestamp_normalization.2.1 1700000000000 (by norm_num)⟩

/-- C2: a cache row carrying both coordinates is served directly (source
tag `"cache"`, no vendor call) when its age is under the 5-minute window,
and the vendor is queried when the age is 300 seconds or more — the exact
5:00 boundary is pinned to the stale side. -/
theorem C2_latest_gps_cache_freshness :
    ∀ (now u : Int) (row : DeviceCacheRow),
      row.updatedAt = some u → row.latitude.isSome = true → row.longitude.isSome = true →
      ((now - u < 300 →
          get_latest_gps_action now (some row) = .fromCache row "cache") ∧
       (300 ≤ now - u →
          get_latest_gps_action now (some row) = .queryVendor)) := by
  intro now u row hu hlat hlng
  constructor
  · intro h
    simp [get_latest_gps_action, hu, hlat, hlng, h]
  · intro h
    have h' : ¬ (now - u < 300) := not_lt.mpr h
    simp [get_latest_gps_action, hu, hlat, hlng, h']

/-- Witness for C2 one second inside and exactly on the boundary. -/
theorem C2_latest_gps_cache_freshness_witness :
    get_latest_gps_action 299
        (some ⟨some 1, some 2, none, none, none, none, some false, some false, none, none, some 0⟩) =
      .fromCache ⟨some 1, some 2, none, none, none, none, some false, some false, none, none, some 0⟩ "cache" ∧
    get_latest_gps_action 300
        (some ⟨some 1, some 2, none, none, none, none, some false, some false, none, none, some 0⟩) =
      .queryVendor :=
  ⟨(C2_latest_gps_cache_freshness 299 0
      ⟨some 1, some 2, none, none, none, none, some false, some false, none, none, some 0⟩
      rfl rfl rfl).1 (by norm_num),
   (C2_latest_gps_cache_freshness 300 0
      ⟨some 1, some 2, none, none, none, none, some false, some false, none, none, some 0⟩
      rfl rfl rfl).2 (by norm_num)⟩

/-- C6: the scheduler sync marks a device online iff the cache row has ACC
on and its `updated_at` age is at most 10 minutes; a stale row (over 10
minutes) yields offline even with ACC on, so the device is not selected for
configuration that cycle. -/
theorem C6_scheduler_ten_minute_window :
    ∀ (now u : Int) (device : DeviceRow) (c : DeviceCacheRow),
      c.updatedAt = some u →
      (((sync_device_status now device (some c)).status = "online") ↔
          (c.accStatus = some true ∧ now - u ≤ 600)) ∧
      (c.accStatus = some true → 600 < now - u →
        is_unconfigured_online (sync_device_status now device (some c)) = false) := by
  intro now u device c hu
  have hs := sync_device_status_status now u device c hu
  constructor
  · rw [hs]
    rcases hacc : c.accStatus with _ | b
    · simp
    · cases b
      · simp
      · by_cases hf : now - u ≤ 600 <;> simp [hf]
  · intro hacc hstale
    have hf : ¬ (now - u ≤ 600) := by omega
    simp [is_unconfigured_online, hs, hacc, hf]

/-- Witness for C6 at ages 600 (fresh) and 601 (stale) seconds. -/
theorem C6_scheduler_ten_minute_window_witness :
    (sync_device_status 600 ⟨"offline", some "no", some 0, none, none⟩
        (some ⟨none, none, none, none, none, none, some true, some true, none, none, some 0⟩)).status
        = "online" ∧
    is_unconfigured_online (sync_device_status 601 ⟨"offline", some "no", some 0, none, none⟩
        (some ⟨none, none, none, none, none, none, some true, some true, none, none, some 0⟩))
        = false :=
  ⟨((C6_scheduler_ten_minute_window 600 0 ⟨"offline", some "no", some 0, none, none⟩
      ⟨none, none, none, none, none, none, some true, some true, none, none, some 0⟩ rfl).1).mpr
      ⟨rfl, by norm_num⟩,
   (C6_scheduler_ten_minute_window 601 0 ⟨"offline", some "no", some 0, none, none⟩
      ⟨none, none, none, none, none, none, some true, some true, none, none, some 0⟩ rfl).2
      rfl (by norm_num)⟩

/-- C10: a device-status payload whose `accStatus` is falsy (integer 0 or
`False`) with no other ACC alias present leaves the cached ACC value
unchanged, while `updated_at` is still refreshed. -/
theorem C10_falsy_acc_status_ignored :
    ∀ (now : Int) (msg : StatusMsg) (row : DeviceCacheRow),
      (msg.accStatus = some (.pint 0) ∨ msg.accStatus = some (.pbool false)) →
      msg.acc = none → msg.accState = none →
      (handle_device_status now msg (some row)).row.accStatus = row.accStatus ∧
      (handle_device_status now msg (some row)).row.updatedAt = some now := by
  intro now msg row hacc h1 h2
  have haccv : status_acc_value msg = none := by
    rcases hacc with h | h <;> simp [status_acc_value, h, h1, h2, pyOrPrim, Prim.truthy]
  cases ho : status_online_value msg with
  | none => simp [handle_device_status, haccv, ho]
  | some b => cases b <;> simp [handle_device_status, haccv, ho]

/-- Witness for C10: `accStatus = 0` with `online = 1` on a row with ACC
previously on. -/
theorem C10_falsy_acc_status_ignored_witness :
    (handle_device_status 500 ⟨some (.pint 0), none, none, some (.pint 1), none, none⟩
      (some ⟨none, none, none, none, none, none, some true, some false, none, none, some 7⟩)).row.accStatus
      = some true ∧
    (handle_device_status 500 ⟨some (.pint 0), none, none, some (.pint 1), none, none⟩
      (some ⟨none, none, none, none, none, none, some true, some false, none, none, some 7⟩)).row.updatedAt
      = some 500 :=
  C10_falsy_acc_status_ignored 500 ⟨some (.pint 0), none, none, some (.pint 1), none, none⟩
    ⟨none, none, none, none, none, none, some true, some false, none, none, some 7⟩
    (Or.inl rfl) rfl rfl

/-- Helper: the notification decision of `handle_device_status` on an
existing row, as a function of the converted ACC value and the previous
one. -/
theorem hds_notified (now : Int) (msg : StatusMsg) (row : DeviceCacheRow) :
    (handle_device_status now msg (some row)).notified =
      ((status_acc_value msg).isSome && row.accStatus.isSome &&
        (row.accStatus != status_acc_value msg)) := rfl

/-- Helper: the ACC value written by `handle_device_status` on an existing
row is the converted payload value when present, else the previous one. -/
theorem hds_row_accStatus (now : Int) (msg : StatusMsg) (row : DeviceCacheRow) :
    (handle_device_status now msg (some row)).row.accStatus =
      (match status_acc_value msg with
       | some a => some a
       | none => row.accStatus) := by
  cases ha : status_acc_value msg <;> cases ho : status_online_value msg <;>
    simp [handle_device_status, ha, ho, apply_ite]

/-- C3: a webhook cache upsert requests a notification fan-out iff the
previous cached ACC value is known and differs from the new one; first
observations and repeated identical payloads trigger nothing, and the
per-subscriber filter follows the stored preference. -/
theorem C3_acc_transition_notification :
    (∀ (now : Int) (msg : StatusMsg) (row : DeviceCacheRow),
        (handle_device_status now msg (some row)).notified = true ↔
          (row.accStatus.isSome = true ∧
           (handle_device_status now msg (some row)).row.accStatus ≠ row.accStatus)) ∧
    (∀ (now : Int) (msg : StatusMsg),
        (handle_device_status now msg none).notified = false) ∧
    (∀ (now now2 : Int) (msg : StatusMsg) (row : DeviceCacheRow),
        (handle_device_status now2 msg
          (some (handle_device_status now msg (some row)).row)).notified = false) ∧
    (∀ (now : Int) (g : Option String) (item : GpsWebhookItem) (row : DeviceCacheRow),
        (handle_gps_item now g item (some row)).notified = true ↔
          (row.accStatus.isSome = true ∧
           (handle_gps_item now g item (some row)).row.accStatus ≠ row.accStatus)) ∧
    (∀ (now : Int) (g : Option String) (item : GpsWebhookItem),
        (handle_gps_item now g item none).notified = false) ∧
    (∀ accOn : Bool,
        subscriber_filter "none" accOn = false ∧
        subscriber_filter "on_only" accOn = accOn ∧
        subscriber_filter "off_only" accOn = !accOn ∧
        subscriber_filter "both" accOn = true) := by
  refine ⟨?_, ?_, ?_, ?_, ?_, ?_⟩
  · intro now msg row
    rw [hds_notified, hds_row_accStatus]
    cases ha : status_acc_value msg with
    | none => simp
    | some a =>
      cases hp : row.accStatus with
      | none => simp
      | some p => cases p <;> cases a <;> simp
  · intro now msg
    rfl
  · intro now now2 msg row
    rw [hds_notified, hds_row_accStatus]
    cases ha : status_acc_value msg <;> simp
  · intro now g item row
    have hn : (handle_gps_item now g item (some row)).notified =
        (row.accStatus.isSome && (row.accStatus != some (item.statusFlagsAcc.getD false))) := rfl
    have hr : (handle_gps_item now g item (some row)).row.accStatus =
        some (item.statusFlagsAcc.getD false) := rfl
    rw [hn, hr]
    cases hp : row.accStatus with
    | none => simp
    | some p => cases p <;> cases hf : item.statusFlagsAcc.getD false <;> simp
  · intro now g item
    rfl
  · intro accOn
    cases accOn <;> simp [subscriber_filter]

/-- Witness for C3: ACC off-to-on via a `msgId=3` payload notifies once and
an identical second application does not. -/
theorem C3_acc_transition_notification_witness :
    ((handle_device_status 100 ⟨some (.pstr "on"), none, none, some (.pint 1), none, none⟩
        (some ⟨none, none, none, none, none, none, some false, some false, none, none, some 0⟩)).notified
      = true) ∧
    ((handle_device_status 200 ⟨some (.pstr "on"), none, none, some (.pint 1), none, none⟩
        (some (handle_device_status 100 ⟨some (.pstr "on"), none, none, some (.pint 1), none, none⟩
          (some ⟨none, none, none, none, none, none, some false, some false, none, none, some 0⟩)).row)).notified
      = false) ∧
    subscriber_filter "on_only" true = true :=
  ⟨(C3_acc_transition_notification.1 100
      ⟨some (.pstr "on"), none, none, some (.pint 1), none, none⟩
      ⟨none, none, none, none, none, none, some false, some false, none, none, some 0⟩).mpr
      ⟨rfl, by decide⟩,
   C3_acc_transition_notification.2.2.1 100 200
      ⟨some (.pstr "on"), none, none, some (.pint 1), none, none⟩
      ⟨none, none, none, none, none, none, some false, some false, none, none, some 0⟩,
   ((C3_acc_transition_notification.2.2.2.2.2 true).2.1).trans rfl⟩

/-- Helper: whether `_process_device` dispatches this cycle, extracted from
the control flow (the first attempt waits on `last_online_at`, retries wait
on `config_last_attempt`). -/
theorem attempted_ite (c sB : Bool) (d1 d2 d0 : DeviceRow) :
    (if c then (if sB then (⟨d1, true⟩ : ProcessResult) else ⟨d2, true⟩)
     else ⟨d0, false⟩).attempted = c := by
  cases c <;> cases sB <;> rfl

/-- Helper: the device written by the generic dispatch shape, when a
dispatch happened. -/
theorem device_ite (c sB : Bool) (d1 d2 d0 : DeviceRow)
    (h : (if c then (if sB then (⟨d1, true⟩ : ProcessResult) else ⟨d2, true⟩)
          else ⟨d0, false⟩).attempted = true) :
    (if c then (if sB then (⟨d1, true⟩ : ProcessResult) else ⟨d2, true⟩)
     else ⟨d0, false⟩).device = (if sB then d1 else d2) := by
  cases c <;> cases sB <;> simp_all

/-- Helper: whether `_process_device` dispatches this cycle, extracted from
the control flow (the first attempt waits on `last_online_at`, retries wait
on `config_last_attempt`). -/
theorem process_device_attempted (now : Int) (s : Bool) (d : DeviceRow) :
    (process_device now s d).attempted =
      (if d.configAttempts.getD 0 = 0 then
        match d.lastOnlineAt with
        | none => false
        | some t => decide (t + INITIAL_DELAY_MINUTES * 60 ≤ now)
      else
        decide (d.configLastAttempt.getD (now - (RETRY_DELAY_MINUTES + 1) * 60) +
          RETRY_DELAY_MINUTES * 60 ≤ now)) := by
  simp only [process_device]
  exact attempted_ite _ _ _ _ _

/-- Helper: field updates persisted by a dispatch (`attempted = true`):
attempt count incremented, last-attempt stamped, and `configured` set
exactly on success. -/
theorem process_device_fields (now : Int) (s : Bool) (d : DeviceRow)
    (h : (process_device now s d).attempted = true) :
    (process_device now s d).device.configAttempts = some (d.configAttempts.getD 0 + 1) ∧
    (process_device now s d).device.configLastAttempt = some now ∧
    (process_device now s d).device.configured = (if s then some "yes" else d.configured) ∧
    (process_device now s d).device.lastOnlineAt = d.lastOnlineAt := by
  simp only [process_device] at h ⊢
  rw [device_ite _ _ _ _ _ h]
  cases s <;> simp

/-- C4: the auto-configuration state machine — no attempt before 3 minutes
after the genuine offline-to-online edge, the first-online timestamp is not
refreshed while the device stays online, a failed dispatch persists the
attempt bookkeeping and defers the next attempt at least 5 minutes, and a
successful dispatch marks the device configured, removing it from
selection. -/
theorem C4_auto_config_state_machine :
    (∀ (s : Bool) (now T : Int) (d : DeviceRow),
        d.configAttempts.getD 0 = 0 → d.lastOnlineAt = some T →
        ((process_device now s d).attempted = true ↔ T + 180 ≤ now)) ∧
    (∀ (now t : Int) (d : DeviceRow) (c : Option DeviceCacheRow),
        d.status = "online" → d.lastOnlineAt = some t →
        (sync_device_status now d c).lastOnlineAt = some t) ∧
    (∀ (now : Int) (d : DeviceRow),
        (process_device now false d).attempted = true →
        (process_device now false d).device.configAttempts
            = some (d.configAttempts.getD 0 + 1) ∧
        (process_device now false d).device.configLastAttempt = some now ∧
        (∀ (s2 : Bool) (now2 : Int), now2 < now + 300 →
          (process_device now2 s2 (process_device now false d).device).attempted = false)) ∧
    (∀ (now : Int) (d : DeviceRow),
        (process_device now true d).attempted = true →
        (process_device now true d).device.configured = some "yes") ∧
    (∀ d : DeviceRow, d.configured = some "yes" → is_unconfigured_online d = false) := by
  refine ⟨?_, ?_, ?_, ?_, ?_⟩
  · intro s now T d h0 hT
    rw [process_device_attempted, if_pos h0, hT]
    simp [INITIAL_DELAY_MINUTES]
  · intro now t d c hst hlast
    cases c with
    | none => simpa [sync_device_status] using hlast
    | some cc => simp [sync_device_status, hst, hlast]
  · intro now d h
    obtain ⟨ha, hl, _, _⟩ := process_device_fields now false d h
    refine ⟨ha, hl, ?_⟩
    intro s2 now2 hlt
    rw [process_device_attempted, ha, hl]
    simp [RETRY_DELAY_MINUTES]
    omega
  · intro now d h
    obtain ⟨_, _, hc, _⟩ := process_device_fields now true d h
    simpa using hc
  · intro d hc
    simp [is_unconfigured_online, hc]

/-- Witness for C4 on a concrete device: the first attempt fires exactly at
the 3-minute mark, a failure at time 180 blocks retries before 480, and
success marks the device configured. -/
theorem C4_auto_config_state_machine_witness :
    ((process_device 180 true ⟨"online", some "no", some 0, none, some 0⟩).attempted = true) ∧
    ((process_device 479 true
        (process_device 180 false ⟨"online", some "no", some 0, none, some 0⟩).device).attempted
      = false) ∧
    ((process_device 480 true ⟨"online", some "no", some 1, some 180, some 0⟩).device.configured
      = some "yes") ∧
    (is_unconfigured_online ⟨"online", some "yes", some 1, some 180, some 0⟩ = false) ∧
    ((sync_device_status 50 ⟨"online", some "no", some 0, none, some 7⟩
        (some ⟨none, none, none, none, none, none, some true, some true, none, none, some 50⟩)).lastOnlineAt
      = some 7) :=
  ⟨(C4_auto_config_state_machine.1 true 180 0 ⟨"online", some "no", some 0, none, some 0⟩
      rfl rfl).mpr (by norm_num),
   (C4_auto_config_state_machine.2.2.1 180 ⟨"online", some "no", some 0, none, some 0⟩
      (by decide)).2.2 true 479 (by norm_num),
   C4_auto_config_state_machine.2.2.2.1 480 ⟨"online", some "no", some 1, some 180, some 0⟩
      (by decide),
   C4_auto_config_state_machine.2.2.2.2 ⟨"online", some "yes", some 1, some 180, some 0⟩ rfl,
   C4_auto_config_state_machine.2.1 50 7 ⟨"online", some "no", some 0, none, some 7⟩
      (some ⟨none, none, none, none, none, none, some true, some true, none, none, some 50⟩)
      rfl rfl⟩

/-- C7 (code bug): the claim's abort-freedom fails on the code.  A
success-coded response whose `data.gpsInfo` is present but whose only
point lacks a longitude is aborted — the source reads its unbound `data`
local (gps_adapter.py:387, bound only at line 331) and the NameError turns
the whole batch into `None`; evaluated here on that failing input.  The
rest of the claim holds: per-point drops happen exactly on a missing
coordinate or unconvertible timestamp, and whenever at least one point is
retained the batch is returned with bounds equal to the timestamps of the
first and last retained point. -/
theorem C7_track_history_abort_bug :
    (parse_track_history_response
        ⟨200, some [⟨some 1000000, none, some 50, none, none, some 1700000001, none, none⟩],
         none, none, none⟩ "D1" = none) ∧
    (∀ (resp : TrackResponse) (did : String) (raw : List V1Point),
        resp.code = 200 ∨ resp.code = 0 → resp.gpsInfo = some raw →
        ∀ f l, (raw.filterMap parse_track_point).head? = some f →
          (raw.filterMap parse_track_point).getLast? = some l →
          parse_track_history_response resp did =
            some ⟨did, f.timestamp_ms, l.timestamp_ms, raw.filterMap parse_track_point⟩) ∧
    (∀ p : V1Point, parse_track_point p = none ↔
        (p.latitude = none ∨ p.longitude = none ∨
         convert_timestamp_to_ms (pyOrInt p.time p.timestamp) = none)) := by
  refine ⟨by decide, ?_, ?_⟩
  · intro resp did raw hc hg f l hf hl
    unfold parse_track_history_response
    rw [if_pos hc, hg]
    simp only [hf, hl]
  · intro p
    rcases hla : p.latitude with _ | la <;> rcases hlo : p.longitude with _ | lo
    · simp [parse_track_point, hla, hlo]
    · simp [parse_track_point, hla, hlo]
    · simp [parse_track_point, hla, hlo]
    · cases hts : convert_timestamp_to_ms (pyOrInt p.time p.timestamp) <;>
        simp [parse_track_point, hla, hlo, hts, convert_raw_coords_to_decimal]

/-- Witness for C7: a two-point batch whose second point lacks a longitude
keeps the good point with first/last-retained bounds, and the bad point is
the one dropped. -/
theorem C7_track_history_abort_bug_witness :
    parse_track_history_response
        ⟨200, some [⟨some 1000000, some 2000000, some 50, none, none, some 1700000000, none, none⟩,
                    ⟨some 1000000, none, some 50, none, none, some 1700000001, none, none⟩],
         none, none, none⟩ "D1" =
      some ⟨"D1", 1700018000000, 1700018000000, [⟨1, 2, 1700018000000, some 50, none⟩]⟩ ∧
    parse_track_point ⟨some 1000000, none, some 50, none, none, some 1700000001, none, none⟩
      = none := by
  have hfm : List.filterMap parse_track_point
      [⟨some 1000000, some 2000000, some 50, none, none, some 1700000000, none, none⟩,
       ⟨some 1000000, none, some 50, none, none, some 1700000001, none, none⟩] =
      [⟨1, 2, 1700018000000, some 50, none⟩] := by
    norm_num [List.filterMap_cons, parse_track_point, convert_raw_coords_to_decimal,
              pyOrInt, truthyInt, convert_timestamp_to_ms, INTEGER_TS_CORRECTION_HOURS,
              v1_speed_kmh]
  constructor
  · have h := C7_track_history_abort_bug.2.1
      ⟨200, some [⟨some 1000000, some 2000000, some 50, none, none, some 1700000000, none, none⟩,
                  ⟨some 1000000, none, some 50, none, none, some 1700000001, none, none⟩],
       none, none, none⟩ "D1"
      [⟨some 1000000, some 2000000, some 50, none, none, some 1700000000, none, none⟩,
       ⟨some 1000000, none, some 50, none, none, some 1700000001, none, none⟩]
      (Or.inl rfl) rfl
      ⟨1, 2, 1700018000000, some 50, none⟩ ⟨1, 2, 1700018000000, some 50, none⟩
      (by rw [hfm]; rfl) (by rw [hfm]; rfl)
    rw [hfm] at h
    exact h
  · exact (C7_track_history_abort_bug.2.2
      ⟨some 1000000, none, some 50, none, none, some 1700000001, none, none⟩).mpr
      (Or.inr (Or.inl rfl))

/-- C8: for a numeric raw speed `s`, dialect A parses `speedKmh` as `s/10`
when `s > 1000` and as `s` otherwise, while dialect B always parses `s/10`;
a missing raw speed yields `None` in both dialects. -/
theorem C8_speed_dialects :
    (∀ (resp : GpsSearchResponse) (did : String) (p : V1Point) (rest : List V1Point),
        resp.code = 200 → resp.list = [] → resp.gpsInfo = p :: rest →
        ∃ dto, parse_latest_gps_response resp did false = some dto ∧
          dto.speed_kmh = (match p.speed with
            | some s => some (if 1000 < s then s / 10 else s)
            | none => none)) ∧
    (∀ (resp : GpsSearchResponse) (did : String) (d : V2Device) (g : V2Gps) (u2 : Bool),
        resp.code = 200 → resp.list = [d] → d.deviceId = did → d.gps = some g →
        ∃ dto, parse_latest_gps_response resp did u2 = some dto ∧
          dto.speed_kmh = (match g.speed with
            | some s => some (s / 10)
            | none => none)) := by
  constructor
  · intro resp did p rest hc hlist hinfo
    unfold parse_latest_gps_response
    rw [if_pos (Or.inl hc), hlist, hinfo]
    exact ⟨_, rfl, by cases hs : p.speed <;> simp [v1_speed_kmh, hs]⟩
  · intro resp did d g u2 hc hlist hdid hg
    have hfind : findV2Device did resp.list = some (d, g) := by
      simp [hlist, findV2Device, hdid, hg]
    unfold parse_latest_gps_response
    rw [if_pos (Or.inl hc), hfind]
    exact ⟨_, rfl, by cases hs : g.speed <;> simp [hs]⟩

/-- Witness for C8: dialect A at raw speeds 1200 and 800, dialect B at raw
speed 359. -/
theorem C8_speed_dialects_witness :
    (∃ dto, parse_latest_gps_response
        ⟨200, [], [⟨some 5290439, some 100291992, some 1200, none, none, some 1735888000, none, none⟩]⟩
        "D1" false = some dto ∧ dto.speed_kmh = some 120) ∧
    (∃ dto, parse_latest_gps_response
        ⟨200, [], [⟨some 5290439, some 100291992, some 800, none, none, some 1735888000, none, none⟩]⟩
        "D1" false = some dto ∧ dto.speed_kmh = some 800) ∧
    (∃ dto, parse_latest_gps_response
        ⟨200, [⟨"D1", some ⟨some 22, some 114, some 359, none, some 1726934400, none⟩, some 1726934500⟩], []⟩
        "D1" true = some dto ∧ dto.speed_kmh = some (359 / 10)) := by
  refine ⟨?_, ?_, ?_⟩
  · obtain ⟨dto, h1, h2⟩ := C8_speed_dialects.1
      ⟨200, [], [⟨some 5290439, some 100291992, some 1200, none, none, some 1735888000, none, none⟩]⟩
      "D1" ⟨some 5290439, some 100291992, some 1200, none, none, some 1735888000, none, none⟩ []
      rfl rfl rfl
    refine ⟨dto, h1, ?_⟩
    rw [h2]
    norm_num
  · obtain ⟨dto, h1, h2⟩ := C8_speed_dialects.1
      ⟨200, [], [⟨some 5290439, some 100291992, some 800, none, none, some 1735888000, none, none⟩]⟩
      "D1" ⟨some 5290439, some 100291992, some 800, none, none, some 1735888000, none, none⟩ []
      rfl rfl rfl
    refine ⟨dto, h1, ?_⟩
    rw [h2]
    norm_num
  · obtain ⟨dto, h1, h2⟩ := C8_speed_dialects.2
      ⟨200, [⟨"D1", some ⟨some 22, some 114, some 359, none, some 1726934400, none⟩, some 1726934500⟩], []⟩
      "D1" ⟨"D1", some ⟨some 22, some 114, some 359, none, some 1726934400, none⟩, some 1726934500⟩
      ⟨some 22, some 114, some 359, none, some 1726934400, none⟩ true
      rfl rfl rfl rfl
    exact ⟨dto, h1, h2⟩

/-- C9: a webhook alarm item with category type 1/2/3/4 gets typeId
`categoryPrefix * 10000 + alarmEventType` with prefixes 64/65/66/70 and
event code defaulting to 1 when the nested details or the code are absent;
a typeId missing from the name table renders as the generic
`"<Category> Alarm (<typeId>)"`. -/
theorem C9_webhook_alarm_taxonomy :
    (∀ (item : WebhookAlarmItem) (c pfx : Int),
        item.type = some c → alarm_category_pfx c = some pfx →
        ((∀ det e, category_details item c = some det → det.alarmEventType = some e →
            get_alarm_type_id item = pfx * 10000 + e) ∧
         (category_details item c = none → get_alarm_type_id item = pfx * 10000 + 1) ∧
         (∀ det, category_details item c = some det → det.alarmEventType = none →
            get_alarm_type_id item = pfx * 10000 + 1))) ∧
    (alarm_category_pfx 1 = some 64 ∧ alarm_category_pfx 2 = some 65 ∧
     alarm_category_pfx 3 = some 66 ∧ alarm_category_pfx 4 = some 70) ∧
    (alarm_category_label 64 = "ADAS" ∧ alarm_category_label 65 = "DSM" ∧
     alarm_category_label 66 = "BSD" ∧ alarm_category_label 70 = "SDA") ∧
    (∀ type_id : Int, ALARM_TYPE_NAMES type_id = none →
        get_alarm_name type_id =
          alarm_category_label (Int.fdiv type_id 10000) ++ " Alarm (" ++ toString type_id ++ ")") := by
  refine ⟨?_, ⟨rfl, rfl, rfl, rfl⟩, ⟨rfl, rfl, rfl, rfl⟩, ?_⟩
  · intro item c pfx hc hpfx
    refine ⟨?_, ?_, ?_⟩
    · intro det e hdet he
      simp [get_alarm_type_id, hc, hpfx, hdet, he]
    · intro hdet
      simp [get_alarm_type_id, hc, hpfx, hdet]
    · intro det hdet he
      simp [get_alarm_type_id, hc, hpfx, hdet, he]
  · intro type_id h
    simp [get_alarm_name, h]

/-- Witness for C9: an SDA (type 4) item with event code 3 yields typeId
700003, and the unmapped 700008 renders generically. -/
theorem C9_webhook_alarm_taxonomy_witness :
    get_alarm_type_id ⟨some 4, none, none, none, none, some ⟨some 3⟩⟩ = 700003 ∧
    get_alarm_name 700008 = "SDA Alarm (700008)" := by
  constructor
  · have h := (C9_webhook_alarm_taxonomy.1 ⟨some 4, none, none, none, none, some ⟨some 3⟩⟩
      4 70 rfl rfl).1 ⟨some 3⟩ 3 rfl rfl
    rw [h]
    norm_num
  · have h := C9_webhook_alarm_taxonomy.2.2.2 700008 rfl
    rw [h]
    rfl

/-- Helper: the dedup emission step preserves the scan invariant — every
emitted alarm's key is recorded, and emitted keys are pairwise distinct. -/
theorem emitAlarm_inv (st : ParseState) (d : AlarmDto)
    (h1 : ∀ a ∈ st.alarms, a.dedupKey ∈ st.seen)
    (h2 : st.alarms.Pairwise (fun a b => a.dedupKey ≠ b.dedupKey)) :
    (∀ a ∈ (emitAlarm st d).alarms, a.dedupKey ∈ (emitAlarm st d).seen) ∧
    (emitAlarm st d).alarms.Pairwise (fun a b => a.dedupKey ≠ b.dedupKey) := by
  unfold emitAlarm
  split
  · exact ⟨h1, h2⟩
  · next hmem =>
    constructor
    · intro a ha
      rcases List.mem_append.mp ha with h | h
      · exact List.mem_cons_of_mem _ (h1 a h)
      · rw [List.mem_singleton.mp h]
        exact List.mem_cons_self _ _
    · rw [List.pairwise_append]
      refine ⟨h2, List.pairwise_singleton _ _, ?_⟩
      intro a ha b hb
      rw [List.mem_singleton.mp hb]
      intro heq
      exact hmem (heq ▸ h1 a ha)

/-- Helper: folding the emission step over any candidate list preserves the
scan invariant. -/
theorem foldl_emitAlarm_inv (ds : List AlarmDto) (st : ParseState)
    (h1 : ∀ a ∈ st.alarms, a.dedupKey ∈ st.seen)
    (h2 : st.alarms.Pairwise (fun a b => a.dedupKey ≠ b.dedupKey)) :
    (∀ a ∈ (ds.foldl emitAlarm st).alarms, a.dedupKey ∈ (ds.foldl emitAlarm st).seen) ∧
    (ds.foldl emitAlarm st).alarms.Pairwise (fun a b => a.dedupKey ≠ b.dedupKey) := by
  induction ds generalizing st with
  | nil => exact ⟨h1, h2⟩
  | cons d ds ih =>
    have h := emitAlarm_inv st d h1 h2
    exact ih _ h.1 h.2

/-- Helper: the whole batch scan preserves the invariant. -/
theorem batch_fold_inv (pts : List RawGpsPoint) (st : ParseState)
    (h1 : ∀ a ∈ st.alarms, a.dedupKey ∈ st.seen)
    (h2 : st.alarms.Pairwise (fun a b => a.dedupKey ≠ b.dedupKey)) :
    (pts.foldl (fun st p => (point_candidates p).foldl emitAlarm st) st).alarms.Pairwise
      (fun a b => a.dedupKey ≠ b.dedupKey) := by
  induction pts generalizing st with
  | nil => exact h2
  | cons p ps ih =>
    have h := foldl_emitAlarm_inv (point_candidates p) st h1 h2
    exact ih _ h.1 h.2

/-- C5: the batch classifier returns at most one alarm per dedup key
(family plus flag/code, timestampMs); in particular two identical entries
in one batch collapse to a single alarm. -/
theorem C5_alarm_batch_dedup :
    (∀ resp : GpsAlarmSearchResponse,
        (parse_gps_alarms resp).Pairwise (fun a b => a.dedupKey ≠ b.dedupKey)) ∧
    (parse_gps_alarms
        ⟨200, [⟨none, none, some 1700000000, none, none, .dict [("overspeed", true)], .absent, [], []⟩,
               ⟨none, none, some 1700000000, none, none, .dict [("overspeed", true)], .absent, [], []⟩],
         []⟩).length = 1 := by
  constructor
  · intro resp
    unfold parse_gps_alarms
    split
    · have hsymm : Symmetric (fun a b : AlarmDto => a.dedupKey ≠ b.dedupKey) :=
        fun a b h => fun e => h e.symm
      have hperm := List.mergeSort_perm
        ((if !resp.list.isEmpty then resp.list else resp.gpsInfo).foldl
          (fun st p => (point_candidates p).foldl emitAlarm st) ⟨[], []⟩).alarms
        (fun a b => decide (b.timestamp_ms ≤ a.timestamp_ms))
      exact (hperm.pairwise_iff (fun h => hsymm h)).mpr
        (batch_fold_inv _ ⟨[], []⟩ (by simp) (by simp))
    · simp
  · rw [show parse_gps_alarms
        ⟨200, [⟨none, none, some 1700000000, none, none, .dict [("overspeed", true)], .absent, [], []⟩,
               ⟨none, none, some 1700000000, none, none, .dict [("overspeed", true)], .absent, [], []⟩],
         []⟩ =
      List.mergeSort
        (([⟨none, none, some 1700000000, none, none, .dict [("overspeed", true)], .absent, [], []⟩,
           ⟨none, none, some 1700000000, none, none, .dict [("overspeed", true)], .absent, [], []⟩] :
            List RawGpsPoint).foldl
          (fun st p => (point_candidates p).foldl emitAlarm st) ⟨[], []⟩).alarms
        (fun a b => decide (b.timestamp_ms ≤ a.timestamp_ms)) from by
        simp [parse_gps_alarms]]
    rw [List.length_mergeSort]
    decide

end Dashcam
